import Mathlib

/-!
Verification of the TelegramGiftBuyer repository against its specification.

The Python sources are shallowly embedded: every definition below mirrors a
concrete function of the repository (the doc comment names the file and
symbol).  Python dictionaries are modelled as association lists over a JSON
value type (`JVal`); a Python dict produced by `json.loads` has unique keys,
and lookups take the first matching key.  A Python function that can raise an
exception is embedded as a function into `Option` where `none` marks the
raised exception.
-/

/-- JSON-like dynamic value, the type of everything Python passes around
after `json.loads` (dicts are association lists in insertion order). -/
inductive JVal where
  | jnull
  | jbool (b : Bool)
  | jint (n : Int)
  | jstr (s : String)
  | jarr (xs : List JVal)
  | jobj (kvs : List (String × JVal))

/-- First-match lookup in a dict modelled as an association list
(Python `d[k]` / `d.get(k)` on a unique-key dict). -/
def dictGet (kvs : List (String × JVal)) (k : String) : Option JVal :=
  (kvs.find? (fun kv => kv.1 == k)).map (fun kv => kv.2)

/-- In-place update of an existing key (Python `d[k] = v`), replacing the
value at every occurrence of the key (dicts have unique keys). -/
def dictSet (kvs : List (String × JVal)) (k : String) (v : JVal) :
    List (String × JVal) :=
  kvs.map (fun kv => if kv.1 == k then (kv.1, v) else kv)

/-- The Python types that `services/config.py` checks with `isinstance`. -/
inductive PyType where
  | pstr
  | pint
  | pbool
  | plist
  | pdict

/-- Python `isinstance(v, t)`.  Note that `bool` is a subclass of `int` in
Python, so a boolean passes an `int` check. -/
def pyIsInstance (v : JVal) (t : PyType) : Bool :=
  match v, t with
  | .jbool _, .pbool => true
  | .jbool _, .pint => true
  | .jint _, .pint => true
  | .jstr _, .pstr => true
  | .jarr _, .plist => true
  | .jobj _, .pdict => true
  | _, _ => false

/-- `services/config.py`, `is_valid_type`: type check with a `None` allowance. -/
def is_valid_type (value : JVal) (expected : PyType) (allow_none : Bool) : Bool :=
  match value with
  | .jnull => allow_none
  | v => pyIsInstance v expected

/-- Python substring test `key in s` for strings (`"" in s` is true). -/
def pySubstr (s key : String) : Bool :=
  if key.isEmpty then true else (s.splitOn key).length ≥ 2

/-- Python `key in container` for the containers that can appear here; `none`
models the `TypeError` raised on an int/bool/None container. -/
def pyContainsKey (v : JVal) (key : String) : Option Bool :=
  match v with
  | .jobj kvs => some (kvs.any (fun kv => kv.1 == key))
  | .jstr s => some (pySubstr s key)
  | .jarr xs =>
      some (xs.any (fun e => match e with | .jstr t => t == key | _ => false))
  | _ => none

/-- Python `container[key]` with a string key; `none` models the `TypeError`
raised on a non-dict container (or a `KeyError` on a missing key). -/
def pyIndex (v : JVal) (key : String) : Option JVal :=
  match v with
  | .jobj kvs => dictGet kvs key
  | _ => none

/-- Python iteration `for x in v`: a list yields its elements, a string its
characters, a dict its keys; `none` models the `TypeError` on int/bool/None. -/
def pyIter (v : JVal) : Option (List JVal) :=
  match v with
  | .jarr xs => some xs
  | .jstr s => some (s.toList.map (fun c => JVal.jstr (String.singleton c)))
  | .jobj kvs => some (kvs.map (fun kv => JVal.jstr kv.1))
  | _ => none

/-- Python `d.get(k, default)` where `d` may be mistyped; `none` models the
`AttributeError` raised when `.get` is called on a non-dict. -/
def pyDictGetMethod (v : JVal) (k : String) (default : JVal) : Option JVal :=
  match v with
  | .jobj kvs => some ((dictGet kvs k).getD default)
  | _ => none

/-- `services/config.py`, `DEFAULT_PROFILE(user_id)`. -/
def DEFAULT_PROFILE (user_id : Int) : List (String × JVal) :=
  [("NAME", .jnull),
   ("MIN_PRICE", .jint 5000),
   ("MAX_PRICE", .jint 10000),
   ("MIN_SUPPLY", .jint 1000),
   ("MAX_SUPPLY", .jint 10000),
   ("LIMIT", .jint 1000000),
   ("COUNT", .jint 5),
   ("TARGET_USER_ID", .jint user_id),
   ("TARGET_CHAT_ID", .jnull),
   ("TARGET_TYPE", .jnull),
   ("SENDER", .jstr "bot"),
   ("BOUGHT", .jint 0),
   ("SPENT", .jint 0),
   ("DONE", .jbool false)]

/-- `services/config.py`, the `USERBOT` part of `DEFAULT_CONFIG(user_id)`. -/
def DEFAULT_USERBOT : List (String × JVal) :=
  [("API_ID", .jnull),
   ("API_HASH", .jnull),
   ("PHONE", .jnull),
   ("USER_ID", .jnull),
   ("USERNAME", .jnull),
   ("BALANCE", .jint 0),
   ("ENABLED", .jbool false),
   ("CONFIG_ID", .jnull),
   ("UPDATE_INTERVAL", .jint 45)]

/-- `services/config.py`, `PROFILE_TYPES`: field name, expected type, allow-None. -/
def PROFILE_TYPES : List (String × PyType × Bool) :=
  [("NAME", .pstr, true),
   ("MIN_PRICE", .pint, false),
   ("MAX_PRICE", .pint, false),
   ("MIN_SUPPLY", .pint, false),
   ("MAX_SUPPLY", .pint, false),
   ("LIMIT", .pint, false),
   ("COUNT", .pint, false),
   ("TARGET_USER_ID", .pint, true),
   ("TARGET_CHAT_ID", .pstr, true),
   ("TARGET_TYPE", .pstr, true),
   ("SENDER", .pstr, true),
   ("BOUGHT", .pint, false),
   ("SPENT", .pint, false),
   ("DONE", .pbool, false)]

/-- Default value of a profile field (`DEFAULT_PROFILE(user_id)[key]`). -/
def defaultProfileVal (user_id : Int) (key : String) : JVal :=
  (dictGet (DEFAULT_PROFILE user_id) key).getD .jnull

/-- Body of the field loop of `services/config.py`, `validate_profile`:
for each typed field, substitute the default when the field is missing or
mistyped, keep it otherwise; `none` models an exception escaping the loop
(e.g. `TypeError` when `profile` is not a container). -/
def validateProfileFields (profile : JVal) (user_id : Int) :
    List (String × PyType × Bool) → Option (List (String × JVal))
  | [] => some []
  | (key, expected, allow_none) :: rest => do
      let present ← pyContainsKey profile key
      let v ←
        if present then do
          let pv ← pyIndex profile key
          pure (if is_valid_type pv expected allow_none then pv
                else defaultProfileVal user_id key)
        else
          pure (defaultProfileVal user_id key)
      let tail ← validateProfileFields profile user_id rest
      some ((key, v) :: tail)

/-- `services/config.py`, `validate_profile`. -/
def validate_profile (profile : JVal) (user_id : Int) :
    Option (List (String × JVal)) :=
  validateProfileFields profile user_id PROFILE_TYPES

/-- Top-level field check of `validate_config` for an ordinary key:
`if key not in config or not is_valid_type(config[key], ...)`. -/
def validateTopField (config : List (String × JVal)) (key : String)
    (expected : PyType) (allow_none : Bool) (defaultVal : JVal) : JVal :=
  match dictGet config key with
  | none => defaultVal
  | some v => if is_valid_type v expected allow_none then v else defaultVal

/-- `services/config.py`, `validate_config`: validates the six `CONFIG_TYPES`
fields in their declaration order.  The `PROFILES` branch validates each
element and re-seeds a default profile when none survive; the `USERBOT`
branch merges key-by-key against its defaults with no type check.  `none`
models an exception escaping `validate_config` (which `get_valid_config`
propagates), e.g. when `PROFILES` or `USERBOT` is present but of an
un-iterable / non-dict type. -/
def validate_config (config : List (String × JVal)) (user_id : Int) :
    Option (List (String × JVal)) := do
  let balance := validateTopField config "BALANCE" .pint false (.jint 0)
  let active := validateTopField config "ACTIVE" .pbool false (.jbool false)
  let deposit := validateTopField config "DEPOSIT_ENBALE" .pbool false (.jbool false)
  let lastMenu := validateTopField config "LAST_MENU_MESSAGE_ID" .pint true .jnull
  let profilesRaw := (dictGet config "PROFILES").getD (.jarr [])
  let profileItems ← pyIter profilesRaw
  let validProfiles ← profileItems.mapM (fun p => validate_profile p user_id)
  let validProfiles :=
    if validProfiles.isEmpty then [DEFAULT_PROFILE user_id] else validProfiles
  let userbotRaw := (dictGet config "USERBOT").getD (.jobj [])
  let validUserbot ← DEFAULT_USERBOT.mapM (fun kv => do
    let v ← pyDictGetMethod userbotRaw kv.1 kv.2
    pure (kv.1, v))
  some [("BALANCE", balance),
        ("ACTIVE", active),
        ("DEPOSIT_ENBALE", deposit),
        ("LAST_MENU_MESSAGE_ID", lastMenu),
        ("PROFILES", .jarr (validProfiles.map JVal.jobj)),
        ("USERBOT", .jobj validUserbot)]

/-- `services/config.py`, `remove_profile`: pops the indexed profile and
re-inserts a default one when the list becomes empty.  `none` models the
`IndexError` raised for a missing `PROFILES` key or an out-of-range index,
and the `TypeError`/`AttributeError`/`KeyError` raised by `len`/`.pop` when
`PROFILES` is not a list. -/
def remove_profile (config : List (String × JVal)) (index : Nat)
    (user_id : Int) : Option (List (String × JVal)) :=
  match dictGet config "PROFILES" with
  | some (.jarr ps) =>
      if index ≥ ps.length then none
      else
        let ps' := ps.eraseIdx index
        let ps'' := if ps'.isEmpty then ps' ++ [.jobj (DEFAULT_PROFILE user_id)]
                    else ps'
        some (dictSet config "PROFILES" (.jarr ps''))
  | _ => none

/-- Keys copied from a legacy flat config into the synthesized profile by
`services/config.py`, `migrate_config_if_needed`. -/
def migrateProfileKeys : List String :=
  ["MIN_PRICE", "MAX_PRICE", "MIN_SUPPLY", "MAX_SUPPLY",
   "COUNT", "LIMIT", "TARGET_USER_ID", "TARGET_CHAT_ID",
   "BOUGHT", "SPENT", "DONE"]

/-- Python `d.setdefault(k, v)` on an insertion-ordered dict: appends the
pair when the key is absent. -/
def dictSetdefault (kvs : List (String × JVal)) (k : String) (v : JVal) :
    List (String × JVal) :=
  if kvs.any (fun kv => kv.1 == k) then kvs else kvs ++ [(k, v)]

/-- `services/config.py`, `migrate_config_if_needed`, rewrite step (file I/O
and the corrupt-file path stripped): given the parsed legacy config, returns
the rewritten new-format config, or `none` when the file is already in the
new format (`"PROFILES" in config`) and is left untouched. -/
def migrate_config (config : List (String × JVal)) :
    Option (List (String × JVal)) :=
  if config.any (fun kv => kv.1 == "PROFILES") then none
  else
    let profile := (migrateProfileKeys.filterMap (fun k =>
      (dictGet config k).map (fun v => (k, v))))
    let profile := dictSetdefault profile "LIMIT" (.jint 1000000)
    let profile := dictSetdefault profile "SPENT" (.jint 0)
    let profile := dictSetdefault profile "BOUGHT" (.jint 0)
    let profile := dictSetdefault profile "DONE" (.jbool false)
    let profile := dictSetdefault profile "COUNT" (.jint 5)
    some [("BALANCE", (dictGet config "BALANCE").getD (.jint 0)),
          ("DEPOSIT_ENBALE", (dictGet config "DEPOSIT_ENBALE").getD (.jbool false)),
          ("ACTIVE", (dictGet config "ACTIVE").getD (.jbool false)),
          ("LAST_MENU_MESSAGE_ID", (dictGet config "LAST_MENU_MESSAGE_ID").getD .jnull),
          ("PROFILES", .jarr [.jobj profile])]

/-!
## Purchase worker (`src/main.py`, `gift_purchase_worker`)

The per-profile purchase logic of the worker pass (lines 101-248) is embedded
as pure functions.  Purchase outcomes (`buy_gift` / `buy_gift_userbot`) are an
oracle `o : Nat → Bool` consumed one index per attempt; the config re-load
before each counter mutation reads back exactly what was last saved (no
concurrent writer is modelled, matching a single-task trace).
-/

/-- Relevant fields of a worker profile (validated config values). -/
structure WProfile where
  COUNT : Int
  LIMIT : Int
  BOUGHT : Int
  SPENT : Int
  DONE : Bool
  SENDER : String
deriving DecidableEq, Repr

/-- One filtered gift as the worker sees it. -/
structure WGift where
  id : String
  price : Int
deriving DecidableEq, Repr

/-- One `buy_gift`/`buy_gift_userbot` call of `gift_purchase_worker`: known
senders consult the outcome oracle, any other `SENDER` value yields
`success = False` without a call. -/
def attemptSuccess (sender : String) (o : Nat → Bool) (k : Nat) : Bool :=
  if sender == "bot" || sender == "userbot" then o k else false

/-- The inner `while` loop of `gift_purchase_worker` (lines 136-178) for one
gift, with an explicit iteration budget.  The budget only bounds recursion:
called with `budget = (COUNT - BOUGHT).toNat` (as `unitLoop` does) the
`0` case coincides with the loop guard failing, so the function equals the
unbounded `while` loop.  Returns the profile after the loop, the list of
attempt outcomes for this gift, the next oracle index, and whether the loop
ended in a failed attempt (`any_success = False`). -/
def unitLoopAux (o : Nat → Bool) (sender : String) (price : Int) :
    Nat → Nat → WProfile → WProfile × List Bool × Nat × Bool
  | 0, k, p => (p, [], k, false)
  | budget + 1, k, p =>
    if p.BOUGHT < p.COUNT ∧ p.SPENT + price ≤ p.LIMIT then
      if attemptSuccess sender o k then
        let p' := { p with BOUGHT := p.BOUGHT + 1, SPENT := p.SPENT + price }
        if p'.SPENT ≥ p'.LIMIT then (p', [true], k + 1, false)
        else
          let r := unitLoopAux o sender price budget (k + 1) p'
          (r.1, true :: r.2.1, r.2.2.1, r.2.2.2)
      else (p, [false], k + 1, true)
    else (p, [], k, false)

/-- The inner `while` loop of `gift_purchase_worker` for one gift. -/
def unitLoop (o : Nat → Bool) (k : Nat) (p : WProfile) (price : Int) :
    WProfile × List Bool × Nat × Bool :=
  unitLoopAux o p.SENDER price (p.COUNT - p.BOUGHT).toNat k p

/-- The `for gift in filtered_gifts` loop of `gift_purchase_worker`
(lines 129-181): run the unit loop per gift, breaking out once the count or
the spend limit is reached.  Returns the profile, the attempt log (gift id
with its attempt outcomes, in order), the next oracle index, and whether any
attempt failed. -/
def giftLoop (o : Nat → Bool) (k : Nat) (p : WProfile) :
    List WGift → WProfile × List (String × List Bool) × Nat × Bool
  | [] => (p, [], k, false)
  | g :: rest =>
    let r := unitLoop o k p g.price
    let p' := r.1
    if p'.BOUGHT ≥ p'.COUNT ∨ p'.SPENT ≥ p'.LIMIT then
      (p', [(g.id, r.2.1)], r.2.2.1, r.2.2.2)
    else
      let rr := giftLoop o r.2.2.1 p' rest
      (rr.1, (g.id, r.2.1) :: rr.2.1, rr.2.2.1, r.2.2.2 || rr.2.2.2)

/-- How a profile's processing ends a pass: skipped (done / sender disabled /
no matching gifts), completed (marked `DONE`, lines 188-219), reported
partial (lines 222-248), or silent (no local progress). -/
inductive ReportKind where
  | skipped
  | completed
  | stalled
  | silent
deriving DecidableEq, Repr

/-- Per-profile body of the worker pass (lines 101-248): skip checks, the
gift loop, then the completion / partial wrap-up.  `ubEnabled` is
`config["USERBOT"]["ENABLED"]`; `filtered` is the profile's already-filtered
gift list (`filter_gifts_by_profile` output). -/
def processProfile (ubEnabled : Bool) (o : Nat → Bool) (k : Nat)
    (p : WProfile) (filtered : List WGift) :
    WProfile × List (String × List Bool) × Nat × Bool × ReportKind :=
  if p.DONE then (p, [], k, false, .skipped)
  else if p.SENDER == "userbot" && !ubEnabled then (p, [], k, false, .skipped)
  else if filtered.isEmpty then (p, [], k, false, .skipped)
  else
    let beforeBought := p.BOUGHT
    let beforeSpent := p.SPENT
    let r := giftLoop o k p filtered
    let p' := r.1
    let progress := beforeBought < p'.BOUGHT ∨ beforeSpent < p'.SPENT
    if (p'.BOUGHT ≥ p'.COUNT ∨ p'.SPENT ≥ p'.LIMIT) ∧ ¬p'.DONE then
      ({ p' with DONE := true }, r.2.1, r.2.2.1, r.2.2.2, .completed)
    else if (p'.BOUGHT < p'.COUNT ∨ p'.SPENT < p'.LIMIT) ∧ ¬p'.DONE ∧ progress then
      (p', r.2.1, r.2.2.1, r.2.2.2, .stalled)
    else
      (p', r.2.1, r.2.2.1, r.2.2.2, .silent)

/-- The `for profile_index, profile in enumerate(...)` loop of one worker
pass: processes each profile (paired with its filtered gift list) in order.
Returns the processed profiles with their report kinds, the next oracle
index, and whether any purchase attempt of the pass failed (the code's
`any_success` flag is the negation of this). -/
def workerPass (ubEnabled : Bool) (o : Nat → Bool) (k : Nat) :
    List (WProfile × List WGift) →
    List (WProfile × ReportKind) × Nat × Bool
  | [] => ([], k, false)
  | (p, gifts) :: rest =>
    let r := processProfile ubEnabled o k p gifts
    let rr := workerPass ubEnabled o r.2.2.1 rest
    ((r.1, r.2.2.2.2) :: rr.1, rr.2.1, r.2.2.2.1 || rr.2.2)

/-!
## Helper lemmas about the dict model
-/

lemma dictGet_dictSet_of_isSome {kvs : List (String × JVal)} {k : String}
    (v : JVal) (h : (dictGet kvs k).isSome) :
    dictGet (dictSet kvs k v) k = some v := by
  induction kvs with
  | nil => simp [dictGet] at h
  | cons hd tl ih =>
    cases hbk : (hd.1 == k) with
    | true => simp [dictGet, dictSet, List.find?, hbk]
    | false =>
      simp only [dictGet, List.find?, hbk] at h
      simp only [dictGet, dictSet, List.map_cons, hbk, List.find?,
        Bool.false_eq_true, if_false]
      exact ih h

/-- The claim C3 statement needs: the validated config always carries a
non-empty `PROFILES` array whenever `validate_config` returns at all. -/
theorem validate_config_profiles_nonempty (config : List (String × JVal))
    (user_id : Int) (out : List (String × JVal))
    (h : validate_config config user_id = some out) :
    ∃ ps, dictGet out "PROFILES" = some (.jarr ps) ∧ ps ≠ [] := by
  simp only [validate_config, Bind.bind, Option.bind_eq_some, Option.pure_def,
    Option.some.injEq] at h
  obtain ⟨items, hI, vps, hvps, vub, hvub, hout⟩ := h
  subst hout
  refine ⟨(if vps.isEmpty then [DEFAULT_PROFILE user_id] else vps).map
    JVal.jobj, rfl, ?_⟩
  cases vps with
  | nil => simp
  | cons a l => simp


lemma remove_profile_profiles_nonempty (config : List (String × JVal))
    (index : Nat) (user_id : Int) (out : List (String × JVal))
    (h : remove_profile config index user_id = some out) :
    ∃ ps, dictGet out "PROFILES" = some (.jarr ps) ∧ ps ≠ [] := by
  unfold remove_profile at h
  split at h
  case h_2 => exact absurd h (by simp)
  case h_1 ps hget =>
    split at h
    · exact absurd h (by simp)
    · simp only [Option.some.injEq] at h
      subst h
      refine ⟨_, dictGet_dictSet_of_isSome _ (by simp [hget]), ?_⟩
      cases he : (ps.eraseIdx index).isEmpty with
      | true => simp [he]
      | false =>
        simp only [he, Bool.false_eq_true, if_false]
        intro hc
        simp [hc] at he

lemma validate_config_profiles_default (config : List (String × JVal))
    (user_id : Int) (out : List (String × JVal))
    (hp : dictGet config "PROFILES" = some (.jarr []))
    (h : validate_config config user_id = some out) :
    dictGet out "PROFILES" = some (.jarr [.jobj (DEFAULT_PROFILE user_id)]) := by
  simp only [validate_config, Bind.bind, Option.bind_eq_some, Option.pure_def,
    Option.some.injEq] at h
  obtain ⟨items, hI, vps, hvps, vub, hvub, hout⟩ := h
  rw [hp] at hI
  simp only [pyIter, Option.getD_some, Option.some.injEq] at hI
  subst hI
  simp only [List.mapM_nil, Option.pure_def, Option.some.injEq] at hvps
  subst hvps
  subst hout
  rfl

lemma remove_profile_reseeds_default (config : List (String × JVal))
    (index : Nat) (user_id : Int) (out : List (String × JVal))
    (ps : List JVal) (hget : dictGet config "PROFILES" = some (.jarr ps))
    (hlen : ps.length = 1)
    (h : remove_profile config index user_id = some out) :
    dictGet out "PROFILES" = some (.jarr [.jobj (DEFAULT_PROFILE user_id)]) := by
  unfold remove_profile at h
  split at h
  case h_2 => exact absurd h (by simp)
  case h_1 ps' hget' =>
    rw [hget] at hget'
    have hps : ps = ps' := JVal.jarr.inj (Option.some.inj hget')
    subst hps
    split at h
    · exact absurd h (by simp)
    · rename_i hidx
      have hidx0 : index = 0 := by omega
      subst hidx0
      obtain ⟨p, hps⟩ : ∃ p, ps = [p] := by
        cases ps with
        | nil => simp at hlen
        | cons a l =>
          cases l with
          | nil => exact ⟨a, rfl⟩
          | cons b m => simp at hlen
      subst hps
      simp only [List.eraseIdx, List.isEmpty_nil, if_true, List.nil_append,
        Option.some.injEq] at h
      subst h
      exact dictGet_dictSet_of_isSome _ (by simp [hget])

/-- C3.  `validate_config` (src/services/config.py lines 310-343) and
`remove_profile` (lines 481-498) both maintain the invariant that whenever
they return (do not raise), the returned record's `PROFILES` list has at
least one entry: `validate_config` substitutes `[DEFAULT_PROFILE(user_id)]`
when no validated profile survives (in particular when the input list is
empty), and `remove_profile` re-inserts a default profile whenever removing
the indexed profile would leave the list empty. -/
theorem claim3_theorem :
    (∀ (config : List (String × JVal)) (user_id : Int)
        (out : List (String × JVal)),
      validate_config config user_id = some out →
      ∃ ps, dictGet out "PROFILES" = some (.jarr ps) ∧ ps ≠ []) ∧
    (∀ (config : List (String × JVal)) (user_id : Int)
        (out : List (String × JVal)),
      dictGet config "PROFILES" = some (.jarr []) →
      validate_config config user_id = some out →
      dictGet out "PROFILES" = some (.jarr [.jobj (DEFAULT_PROFILE user_id)])) ∧
    (∀ (config : List (String × JVal)) (index : Nat) (user_id : Int)
        (out : List (String × JVal)),
      remove_profile config index user_id = some out →
      ∃ ps, dictGet out "PROFILES" = some (.jarr ps) ∧ ps ≠ []) ∧
    (∀ (config : List (String × JVal)) (index : Nat) (user_id : Int)
        (out : List (String × JVal)) (ps : List JVal),
      dictGet config "PROFILES" = some (.jarr ps) → ps.length = 1 →
      remove_profile config index user_id = some out →
      dictGet out "PROFILES" = some (.jarr [.jobj (DEFAULT_PROFILE user_id)])) :=
  ⟨validate_config_profiles_nonempty,
   validate_config_profiles_default,
   remove_profile_profiles_nonempty,
   remove_profile_reseeds_default⟩

/-- Witness for C3 at concrete inputs: an empty config validates to a record
with the single default profile, and removing the only profile of a
one-profile config re-seeds the default profile. -/
theorem claim3_witness :
    (∃ ps, dictGet [("BALANCE", JVal.jint 0), ("ACTIVE", JVal.jbool false),
        ("DEPOSIT_ENBALE", JVal.jbool false),
        ("LAST_MENU_MESSAGE_ID", JVal.jnull),
        ("PROFILES", JVal.jarr [JVal.jobj (DEFAULT_PROFILE 7)]),
        ("USERBOT", JVal.jobj DEFAULT_USERBOT)] "PROFILES"
        = some (JVal.jarr ps) ∧ ps ≠ []) ∧
    dictGet [("PROFILES", JVal.jarr [JVal.jobj (DEFAULT_PROFILE 7)])]
        "PROFILES" = some (JVal.jarr [JVal.jobj (DEFAULT_PROFILE 7)]) :=
  ⟨claim3_theorem.1 [] 7 _ rfl,
   claim3_theorem.2.2.2 [("PROFILES", JVal.jarr [JVal.jobj []])] 0 7 _
     [JVal.jobj []] rfl rfl rfl⟩

/-- C4 is a code bug: `validate_config` declares `USERBOT : (dict, False)`
and `PROFILES : (list, False)` in `CONFIG_TYPES` but never applies the type
check to these two keys; on a config whose `USERBOT` is a number it calls
`.get` on that number and raises `AttributeError` (embedded as `none`)
instead of substituting the default, so `get_valid_config` propagates an
exception instead of returning a repaired record. -/
theorem claim4_theorem :
    validate_config [("USERBOT", JVal.jint 5)] 0 = none ∧
    validate_config [("PROFILES", JVal.jint 5)] 0 = none := ⟨rfl, rfl⟩

/-- C6.  `migrate_config_if_needed` (src/services/config.py lines 362-414) on
a legacy flat config carrying only `MIN_PRICE=5000` and `MAX_PRICE=9000`
(no `COUNT` key) rewrites it to the new shape with exactly one profile that
preserves the two price fields and defaults `LIMIT=1000000, SPENT=0,
BOUGHT=0, DONE=false, COUNT=5`. -/
theorem claim6_theorem :
    migrate_config [("MIN_PRICE", JVal.jint 5000), ("MAX_PRICE", JVal.jint 9000)]
      = some
        [("BALANCE", JVal.jint 0),
         ("DEPOSIT_ENBALE", JVal.jbool false),
         ("ACTIVE", JVal.jbool false),
         ("LAST_MENU_MESSAGE_ID", JVal.jnull),
         ("PROFILES", JVal.jarr [JVal.jobj
           [("MIN_PRICE", JVal.jint 5000),
            ("MAX_PRICE", JVal.jint 9000),
            ("LIMIT", JVal.jint 1000000),
            ("SPENT", JVal.jint 0),
            ("BOUGHT", JVal.jint 0),
            ("DONE", JVal.jbool false),
            ("COUNT", JVal.jint 5)]])] := rfl

/-- C1 counterexample: with `COUNT=3, LIMIT=12000`, a single matching gift
priced 5000 and every purchase succeeding, the worker stops after 2 units
(a third would exceed the limit) but does **not** mark the profile `DONE` —
the completion test `BOUGHT >= COUNT or SPENT >= LIMIT` holds for neither
bound (2 < 3 and 10000 < 12000), contradicting the claim that the profile
is marked `DONE`. -/
theorem claim1_counterexample :
    (processProfile true (fun _ => true) 0
      ⟨3, 12000, 0, 0, false, "bot"⟩ [⟨"gift1", 5000⟩]).1.DONE = false := by
  decide

/-- C1 amended: in that scenario the worker buys exactly 2 units (two
successful attempts on the gift), leaves `BOUGHT=2, SPENT=10000` and leaves
`DONE` false, reporting the profile as partial (`stalled`), because `DONE`
is set only when `BOUGHT ≥ COUNT` or `SPENT ≥ LIMIT` actually holds. -/
theorem claim1_theorem :
    workerPass true (fun _ => true) 0
      [(⟨3, 12000, 0, 0, false, "bot"⟩, [⟨"gift1", 5000⟩])]
      = ([(⟨3, 12000, 2, 10000, false, "bot"⟩, ReportKind.stalled)], 2, false)
    ∧ (processProfile true (fun _ => true) 0
        ⟨3, 12000, 0, 0, false, "bot"⟩ [⟨"gift1", 5000⟩]).2.1
      = [("gift1", [true, true])] := by
  decide

/-- C2 counterexample: with two matching gifts and every purchase failing,
the attempt log of a single profile records an attempt on the second gift
after the failed attempt on the first — a failure aborts only the per-gift
unit loop, not the profile's whole gift loop, contradicting "no further
purchase attempt is made for that same profile during that pass". -/
theorem claim2_counterexample :
    (processProfile true (fun _ => false) 0
      ⟨5, 100000, 0, 0, false, "bot"⟩ [⟨"gift1", 5000⟩, ⟨"gift2", 4000⟩]).2.1
      = [("gift1", [false]), ("gift2", [false])]
    ∧ (workerPass true (fun _ => false) 0
        [(⟨5, 100000, 0, 0, false, "bot"⟩,
          [⟨"gift1", 5000⟩, ⟨"gift2", 4000⟩])]).2.2 = true := by
  decide

lemma unitLoopAux_log (o : Nat → Bool) (s : String) (price : Int) :
    ∀ (budget k : Nat) (p : WProfile),
      ((unitLoopAux o s price budget k p).2.1.dropLast.all (fun b => b)) = true
      ∧ ((unitLoopAux o s price budget k p).2.2.2 = true ↔
          false ∈ (unitLoopAux o s price budget k p).2.1) := by
  intro budget
  induction budget with
  | zero => intro k p; simp [unitLoopAux]
  | succ n ih =>
    intro k p
    simp only [unitLoopAux]
    split
    · split
      · split
        · simp
        · obtain ⟨ih1, ih2⟩ := ih (k + 1)
            { p with BOUGHT := p.BOUGHT + 1, SPENT := p.SPENT + price }
          cases hlog : (unitLoopAux o s price n (k + 1)
              { p with BOUGHT := p.BOUGHT + 1, SPENT := p.SPENT + price }).2.1 with
          | nil =>
            rw [hlog] at ih2
            simp_all
          | cons b l =>
            rw [hlog] at ih1 ih2
            constructor
            · simpa using ih1
            · simpa using ih2
      · simp
    · simp [unitLoopAux]

lemma unitLoop_log (o : Nat → Bool) (k : Nat) (p : WProfile) (price : Int) :
    ((unitLoop o k p price).2.1.dropLast.all (fun b => b)) = true
    ∧ ((unitLoop o k p price).2.2.2 = true ↔
        false ∈ (unitLoop o k p price).2.1) :=
  unitLoopAux_log o p.SENDER price (p.COUNT - p.BOUGHT).toNat k p

lemma giftLoop_log (o : Nat → Bool) (k : Nat) (p : WProfile)
    (gifts : List WGift) :
    (∀ e ∈ (giftLoop o k p gifts).2.1, e.2.dropLast.all (fun b => b) = true)
    ∧ ((giftLoop o k p gifts).2.2.2 = true ↔
        ∃ e ∈ (giftLoop o k p gifts).2.1, false ∈ e.2) := by
  induction gifts generalizing k p with
  | nil => simp [giftLoop]
  | cons g rest ih =>
    obtain ⟨h1, h2⟩ := unitLoop_log o k p g.price
    simp only [giftLoop]
    split
    · constructor
      · intro e he
        simp only [List.mem_singleton] at he
        subst he
        exact h1
      · simpa using h2
    · obtain ⟨ih1, ih2⟩ := ih ((unitLoop o k p g.price).2.2.1)
        (unitLoop o k p g.price).1
      constructor
      · intro e he
        simp only [List.mem_cons] at he
        rcases he with rfl | he
        · exact h1
        · exact ih1 e he
      · simp only [Bool.or_eq_true, h2, ih2]
        constructor
        · rintro (hf | ⟨e, he, hf⟩)
          · exact ⟨_, List.mem_cons_self _ _, hf⟩
          · exact ⟨e, List.mem_cons_of_mem _ he, hf⟩
        · rintro ⟨e, he, hf⟩
          rcases List.mem_cons.mp he with rfl | he
          · exact Or.inl hf
          · exact Or.inr ⟨e, he, hf⟩

/-- C2 amended: within one worker pass, a failed purchase attempt ends the
attempts for the **current gift** only (in every per-gift attempt log, every
attempt before the last one succeeded), the worker then proceeds to the
profile's next matching gift, and the pass-failure flag (the negation of the
code's `any_success`) is set exactly when some attempt of the pass failed. -/
theorem claim2_theorem (o : Nat → Bool) (k : Nat) (p : WProfile)
    (gifts : List WGift) :
    (∀ e ∈ (giftLoop o k p gifts).2.1, e.2.dropLast.all (fun b => b) = true)
    ∧ ((giftLoop o k p gifts).2.2.2 = true ↔
        ∃ e ∈ (giftLoop o k p gifts).2.1, false ∈ e.2) :=
  giftLoop_log o k p gifts

/-- Witness for C2 amended at the concrete two-gift always-failing run. -/
theorem claim2_witness :
    (("gift1", [false]) : String × List Bool).2.dropLast.all (fun b => b) = true
    ∧ ((giftLoop (fun _ => false) 0 ⟨5, 100000, 0, 0, false, "bot"⟩
        [⟨"gift1", 5000⟩, ⟨"gift2", 4000⟩]).2.2.2 = true ↔
        ∃ e ∈ (giftLoop (fun _ => false) 0 ⟨5, 100000, 0, 0, false, "bot"⟩
          [⟨"gift1", 5000⟩, ⟨"gift2", 4000⟩]).2.1, false ∈ e.2) :=
  ⟨(claim2_theorem (fun _ => false) 0 ⟨5, 100000, 0, 0, false, "bot"⟩
      [⟨"gift1", 5000⟩, ⟨"gift2", 4000⟩]).1 ("gift1", [false]) (by decide),
   (claim2_theorem (fun _ => false) 0 ⟨5, 100000, 0, 0, false, "bot"⟩
      [⟨"gift1", 5000⟩, ⟨"gift2", 4000⟩]).2⟩

/-!
## Bulk-refund optimizer (`src/services/balance.py`, `refund_all_star_payments`)

The subset-selection step (lines 180-207) over the unrefunded candidate
deposits, represented by their amounts.  `combinations` mirrors
`itertools.combinations` (enumeration order included); the scan keeps the
best sum ≤ balance and breaks out as soon as it equals the balance.
-/

/-- `itertools.combinations(l, r)`: all length-`r` subsequences of `l` in
lexicographic position order. -/
def combinations {α : Type} : Nat → List α → List (List α)
  | 0, _ => [[]]
  | _ + 1, [] => []
  | r + 1, x :: xs => (combinations r xs).map (x :: ·) ++ combinations (r + 1) xs

/-- The inner `for combo in combinations(...)` loop: fold the
best-(combo, sum) accumulator over the combos of one size, breaking as soon
as the best sum equals the balance. -/
def refundScan (balance : Nat) : List (List Nat) → List Nat × Nat →
    List Nat × Nat
  | [], acc => acc
  | c :: rest, acc =>
    let s := c.sum
    let acc' := if s ≤ balance ∧ acc.2 < s then (c, s) else acc
    if acc'.2 = balance then acc' else refundScan balance rest acc'

/-- The outer `for r in range(1, n+1)` loop with its own early break. -/
def refundLoop (balance : Nat) (deposits : List Nat) :
    List Nat → List Nat × Nat → List Nat × Nat
  | [], acc => acc
  | r :: rs, acc =>
    let acc' := refundScan balance (combinations r deposits) acc
    if acc'.2 = balance then acc' else refundLoop balance deposits rs acc'

/-- Stable descending insertion (models `list.sort(key=amount, reverse=True)`;
for plain amounts stability is irrelevant). -/
def insertDesc (x : Nat) : List Nat → List Nat
  | [] => [x]
  | y :: ys => if x ≥ y then x :: y :: ys else y :: insertDesc x ys

/-- Descending sort used by the greedy fallback branch. -/
def sortDesc (l : List Nat) : List Nat := l.foldr insertDesc []

/-- The greedy fallback (`else` branch, lines 196-204): accumulate the
descending-sorted deposits while the running sum stays ≤ balance. -/
def refundGreedy (balance : Nat) (deposits : List Nat) : List Nat × Nat :=
  (sortDesc deposits).foldl
    (fun acc t => if acc.2 + t ≤ balance then (acc.1 ++ [t], acc.2 + t) else acc)
    ([], 0)

/-- `refund_all_star_payments`, subset-selection step: the
`(best_combo, best_sum)` pair computed from the unrefunded candidate
deposits and the current balance (exact search for ≤ 18 candidates, greedy
otherwise). -/
def refundSelect (deposits : List Nat) (balance : Nat) : List Nat × Nat :=
  if deposits.length ≤ 18 then
    refundLoop balance deposits ((List.range deposits.length).map (· + 1)) ([], 0)
  else refundGreedy balance deposits

/-- Modelled from the spec's wording for the comparison: the maximum subset
sum not exceeding the balance, over all subsets of the deposits. -/
def maxSubsetSum (deposits : List Nat) (balance : Nat) : Nat :=
  (((deposits.sublists).map List.sum).filter (· ≤ balance)).foldr max 0

lemma mem_combinations {α : Type} :
    ∀ {l : List α} {r : Nat} {c : List α},
      c ∈ combinations r l ↔ c.Sublist l ∧ c.length = r := by
  intro l
  induction l with
  | nil =>
    intro r c
    cases r with
    | zero =>
      simp only [combinations, List.mem_singleton]
      constructor
      · rintro rfl; exact ⟨List.Sublist.refl _, rfl⟩
      · rintro ⟨hs, _⟩; exact List.sublist_nil.mp hs
    | succ r =>
      simp only [combinations, List.not_mem_nil, false_iff, not_and]
      intro hs
      have : c = [] := List.sublist_nil.mp hs
      subst this
      simp
  | cons x xs ih =>
    intro r c
    cases r with
    | zero =>
      simp only [combinations, List.mem_singleton]
      constructor
      · rintro rfl; exact ⟨List.nil_sublist _, rfl⟩
      · rintro ⟨_, hl⟩; exact List.length_eq_zero.mp hl
    | succ r =>
      simp only [combinations, List.mem_append, List.mem_map]
      constructor
      · rintro (⟨t, ht, rfl⟩ | h)
        · obtain ⟨hts, htl⟩ := ih.mp ht
          exact ⟨List.Sublist.cons₂ x hts, by simp [htl]⟩
        · obtain ⟨hts, htl⟩ := ih.mp h
          exact ⟨List.Sublist.cons x hts, htl⟩
      · rintro ⟨hs, hl⟩
        cases hs with
        | cons _ h' => exact Or.inr (ih.mpr ⟨h', hl⟩)
        | cons₂ _ h' =>
          rename_i t
          exact Or.inl ⟨t, ih.mpr ⟨h', by simpa using hl⟩, rfl⟩

lemma refundScan_le (b : Nat) :
    ∀ (cs : List (List Nat)) (acc : List Nat × Nat),
      acc.2 ≤ b → (refundScan b cs acc).2 ≤ b := by
  intro cs
  induction cs with
  | nil => intro acc h; exact h
  | cons c rest ih =>
    intro acc h
    simp only [refundScan]
    by_cases hup : c.sum ≤ b ∧ acc.2 < c.sum
    · rw [if_pos hup]
      by_cases hex : ((c, c.sum) : List Nat × Nat).2 = b
      · rw [if_pos hex]; exact hup.1
      · rw [if_neg hex]; exact ih _ hup.1
    · rw [if_neg hup]
      by_cases hex : acc.2 = b
      · rw [if_pos hex]; exact h
      · rw [if_neg hex]; exact ih _ h

lemma refundScan_mono (b : Nat) :
    ∀ (cs : List (List Nat)) (acc : List Nat × Nat),
      acc.2 ≤ (refundScan b cs acc).2 := by
  intro cs
  induction cs with
  | nil => intro acc; exact Nat.le_refl _
  | cons c rest ih =>
    intro acc
    simp only [refundScan]
    by_cases hup : c.sum ≤ b ∧ acc.2 < c.sum
    · rw [if_pos hup]
      by_cases hex : ((c, c.sum) : List Nat × Nat).2 = b
      · rw [if_pos hex]; exact Nat.le_of_lt hup.2
      · rw [if_neg hex]
        exact Nat.le_trans (Nat.le_of_lt hup.2) (ih ((c, c.sum) : List Nat × Nat))
    · rw [if_neg hup]
      by_cases hex : acc.2 = b
      · rw [if_pos hex]
      · rw [if_neg hex]; exact ih _

lemma refundScan_ge (b : Nat) :
    ∀ (cs : List (List Nat)) (acc : List Nat × Nat),
      acc.2 ≤ b → ∀ c ∈ cs, c.sum ≤ b → c.sum ≤ (refundScan b cs acc).2 := by
  intro cs
  induction cs with
  | nil => intro acc _ c hc; exact absurd hc (List.not_mem_nil c)
  | cons c0 rest ih =>
    intro acc hacc c hc hcb
    simp only [refundScan]
    rcases List.mem_cons.mp hc with rfl | hc'
    · by_cases hup : c.sum ≤ b ∧ acc.2 < c.sum
      · rw [if_pos hup]
        by_cases hex : ((c, c.sum) : List Nat × Nat).2 = b
        · rw [if_pos hex]
        · rw [if_neg hex]
          exact refundScan_mono b rest ((c, c.sum) : List Nat × Nat)
      · have hle : c.sum ≤ acc.2 := by
          rcases not_and_or.mp hup with h1 | h2
          · exact absurd hcb h1
          · omega
        rw [if_neg hup]
        by_cases hex : acc.2 = b
        · rw [if_pos hex]; omega
        · rw [if_neg hex]
          exact Nat.le_trans hle (refundScan_mono b rest _)
    · by_cases hup : c0.sum ≤ b ∧ acc.2 < c0.sum
      · rw [if_pos hup]
        by_cases hex : ((c0, c0.sum) : List Nat × Nat).2 = b
        · rw [if_pos hex]
          simp only []
          omega
        · rw [if_neg hex]; exact ih _ hup.1 c hc' hcb
      · rw [if_neg hup]
        by_cases hex : acc.2 = b
        · rw [if_pos hex]; omega
        · rw [if_neg hex]; exact ih _ hacc c hc' hcb

lemma refundScan_mem (b : Nat) :
    ∀ (cs : List (List Nat)) (acc : List Nat × Nat),
      (refundScan b cs acc).2 = acc.2 ∨
      ∃ c ∈ cs, (refundScan b cs acc).2 = c.sum ∧ c.sum ≤ b := by
  intro cs
  induction cs with
  | nil => intro acc; exact Or.inl rfl
  | cons c0 rest ih =>
    intro acc
    simp only [refundScan]
    by_cases hup : c0.sum ≤ b ∧ acc.2 < c0.sum
    · rw [if_pos hup]
      by_cases hex : ((c0, c0.sum) : List Nat × Nat).2 = b
      · rw [if_pos hex]
        exact Or.inr ⟨c0, List.mem_cons_self _ _, rfl, hup.1⟩
      · rw [if_neg hex]
        rcases ih ((c0, c0.sum) : List Nat × Nat) with h0 | ⟨c, hc, heq, hle⟩
        · exact Or.inr ⟨c0, List.mem_cons_self _ _, h0, hup.1⟩
        · exact Or.inr ⟨c, List.mem_cons_of_mem _ hc, heq, hle⟩
    · rw [if_neg hup]
      by_cases hex : acc.2 = b
      · rw [if_pos hex]; exact Or.inl rfl
      · rw [if_neg hex]
        rcases ih acc with h0 | ⟨c, hc, heq, hle⟩
        · exact Or.inl h0
        · exact Or.inr ⟨c, List.mem_cons_of_mem _ hc, heq, hle⟩

lemma refundLoop_le (b : Nat) (d : List Nat) :
    ∀ (rs : List Nat) (acc : List Nat × Nat),
      acc.2 ≤ b → (refundLoop b d rs acc).2 ≤ b := by
  intro rs
  induction rs with
  | nil => intro acc h; exact h
  | cons r rest ih =>
    intro acc h
    simp only [refundLoop]
    split
    · exact refundScan_le b _ acc h
    · exact ih _ (refundScan_le b _ acc h)

lemma refundLoop_mono (b : Nat) (d : List Nat) :
    ∀ (rs : List Nat) (acc : List Nat × Nat),
      acc.2 ≤ (refundLoop b d rs acc).2 := by
  intro rs
  induction rs with
  | nil => intro acc; exact Nat.le_refl _
  | cons r rest ih =>
    intro acc
    simp only [refundLoop]
    split
    · exact refundScan_mono b _ acc
    · exact Nat.le_trans (refundScan_mono b _ acc) (ih _)

lemma refundLoop_ge (b : Nat) (d : List Nat) :
    ∀ (rs : List Nat) (acc : List Nat × Nat),
      acc.2 ≤ b → ∀ r ∈ rs, ∀ c ∈ combinations r d, c.sum ≤ b →
      c.sum ≤ (refundLoop b d rs acc).2 := by
  intro rs
  induction rs with
  | nil => intro acc _ r hr; exact absurd hr (List.not_mem_nil r)
  | cons r0 rest ih =>
    intro acc hacc r hr c hc hcb
    rcases List.mem_cons.mp hr with rfl | hr'
    · simp only [refundLoop]
      split
      · exact refundScan_ge b _ acc hacc c hc hcb
      · exact Nat.le_trans (refundScan_ge b _ acc hacc c hc hcb)
          (refundLoop_mono b d rest _)
    · simp only [refundLoop]
      split
      · rename_i hexact
        rw [hexact]
        exact hcb
      · exact ih _ (refundScan_le b _ acc hacc) r hr' c hc hcb

lemma refundLoop_mem (b : Nat) (d : List Nat) :
    ∀ (rs : List Nat) (acc : List Nat × Nat),
      (refundLoop b d rs acc).2 = acc.2 ∨
      ∃ r ∈ rs, ∃ c ∈ combinations r d,
        (refundLoop b d rs acc).2 = c.sum ∧ c.sum ≤ b := by
  intro rs
  induction rs with
  | nil => intro acc; exact Or.inl rfl
  | cons r0 rest ih =>
    intro acc
    simp only [refundLoop]
    split
    · rcases refundScan_mem b (combinations r0 d) acc with h0 | ⟨c, hc, heq, hle⟩
      · exact Or.inl h0
      · exact Or.inr ⟨r0, List.mem_cons_self _ _, c, hc, heq, hle⟩
    · rcases ih (refundScan b (combinations r0 d) acc) with h0 | h1
      · rcases refundScan_mem b (combinations r0 d) acc with g0 | ⟨c, hc, heq, hle⟩
        · exact Or.inl (h0.trans g0)
        · exact Or.inr ⟨r0, List.mem_cons_self _ _, c, hc, h0.trans heq, hle⟩
      · obtain ⟨r, hr, c, hc, heq, hle⟩ := h1
        exact Or.inr ⟨r, List.mem_cons_of_mem _ hr, c, hc, heq, hle⟩

lemma le_foldr_max {l : List Nat} {a : Nat} (h : a ∈ l) :
    a ≤ l.foldr max 0 := by
  induction l with
  | nil => exact absurd h (List.not_mem_nil a)
  | cons x xs ih =>
    rcases List.mem_cons.mp h with rfl | h'
    · exact Nat.le_max_left _ _
    · exact Nat.le_trans (ih h') (Nat.le_max_right _ _)

lemma foldr_max_le {l : List Nat} {m : Nat} (h : ∀ a ∈ l, a ≤ m) :
    l.foldr max 0 ≤ m := by
  induction l with
  | nil => exact Nat.zero_le _
  | cons x xs ih =>
    simp only [List.foldr_cons]
    exact Nat.max_le.mpr ⟨h x (List.mem_cons_self _ _),
      ih (fun a ha => h a (List.mem_cons_of_mem _ ha))⟩

lemma refundSelect_exact_opt (d : List Nat) (b : Nat) (hlen : d.length ≤ 18) :
    (refundSelect d b).2 = maxSubsetSum d b := by
  unfold refundSelect
  rw [if_pos hlen]
  apply Nat.le_antisymm
  · rcases refundLoop_mem b d ((List.range d.length).map (· + 1)) ([], 0) with
      h0 | ⟨r, _, c, hc, heq, hle⟩
    · rw [h0]; exact Nat.zero_le _
    · rw [heq]
      apply le_foldr_max
      simp only [List.mem_filter, List.mem_map, List.mem_sublists,
        decide_eq_true_eq]
      exact ⟨⟨c, (mem_combinations.mp hc).1, rfl⟩, hle⟩
  · apply foldr_max_le
    intro a ha
    simp only [List.mem_filter, List.mem_map, List.mem_sublists,
      decide_eq_true_eq] at ha
    obtain ⟨⟨s, hsub, rfl⟩, hsb⟩ := ha
    cases hs : s with
    | nil => simp [hs]
    | cons x xs =>
      have hpos : 1 ≤ s.length := by rw [hs]; simp
      have hle : s.length ≤ d.length := hsub.length_le
      have hmem : s.length ∈ (List.range d.length).map (· + 1) := by
        simp only [List.mem_map, List.mem_range]
        exact ⟨s.length - 1, by omega, by omega⟩
      rw [← hs]
      exact refundLoop_ge b d _ ([], 0) (Nat.zero_le b) s.length hmem s
        (mem_combinations.mpr ⟨hsub, rfl⟩) hsb

/-- C5.  In the bulk-refund optimizer (`src/services/balance.py`,
`refund_all_star_payments`, lines 180-207), when there are at most 18
unrefunded candidate deposits the exact-search branch (subsets enumerated by
increasing size with an early break on an exact match) attains the maximum
achievable subset sum not exceeding the current balance; in particular, for
balance 100 and candidate amounts [30, 70, 40] it selects exactly
`[30, 70]` with sum 100 and `left = 0`. -/
theorem claim5_theorem :
    (∀ (deposits : List Nat) (balance : Nat), deposits.length ≤ 18 →
      (refundSelect deposits balance).2 = maxSubsetSum deposits balance)
    ∧ refundSelect [30, 70, 40] 100 = ([30, 70], 100)
    ∧ 100 - (refundSelect [30, 70, 40] 100).2 = 0 :=
  ⟨refundSelect_exact_opt, by decide, by decide⟩

/-- Witness for C5: the optimality statement applied at the concrete inputs
of the spec's example. -/
theorem claim5_witness :
    (refundSelect [30, 70, 40] 100).2 = maxSubsetSum [30, 70, 40] 100 :=
  claim5_theorem.1 [30, 70, 40] 100 (by decide)

/-!
## Profile wizard band validation (`src/handlers/handlers_wizard.py`)

The max-price / max-supply steps of the new-profile wizard
(`step_max_price` lines 1564-1591, `step_max_supply` lines 1617-1644) and of
the profile-edit flow (`step_edit_max_price` lines 1046-1089,
`step_edit_max_supply` lines 1125-1168).  The message boundary is
pre-classified: `/cancel` detection and Python `int(text)` parsing are
abstracted into `WizMsg`; everything after that mirrors the handlers. -/

/-- Classified inbound message for a wizard step: `nontext` when
`message.text` is falsy, `cancelMsg` for the literal `/cancel`, otherwise
the result of `int(message.text)` (`nonIntText` when `int` raises). -/
inductive WizMsg where
  | nontext
  | cancelMsg
  | nonIntText
  | intText (v : Int)
deriving DecidableEq, Repr

/-- The wizard's per-session state bag entries used by the band steps
(`state.get_data()`); `none` models a key absent from this session. -/
structure WizardData where
  MIN_PRICE : Option Int
  MAX_PRICE : Option Int
  MIN_SUPPLY : Option Int
  MAX_SUPPLY : Option Int
deriving DecidableEq, Repr

/-- Outcome of a new-profile wizard step. -/
inductive StepOutcome where
  | cancelled
  | rejectedNotText
  | rejectedNotPositive
  | rejectedBand
  | advanced (next : String)
deriving DecidableEq, Repr

/-- `step_min_price` (lines 1541-1561): accept a positive integer, store it
as `MIN_PRICE`, advance to the max-price state. -/
def step_min_price (m : WizMsg) (d : WizardData) : StepOutcome × WizardData :=
  match m with
  | .cancelMsg => (.cancelled, d)
  | .nontext => (.rejectedNotText, d)
  | .nonIntText => (.rejectedNotPositive, d)
  | .intText v =>
    if v ≤ 0 then (.rejectedNotPositive, d)
    else (.advanced "max_price", { d with MIN_PRICE := some v })

/-- `step_max_price` (lines 1564-1591): accept a positive integer, reject it
when a truthy `MIN_PRICE` from this session exceeds it
(`if min_price and value < min_price`), otherwise store `MAX_PRICE` and
advance to the min-supply state. -/
def step_max_price (m : WizMsg) (d : WizardData) : StepOutcome × WizardData :=
  match m with
  | .cancelMsg => (.cancelled, d)
  | .nontext => (.rejectedNotText, d)
  | .nonIntText => (.rejectedNotPositive, d)
  | .intText v =>
    if v ≤ 0 then (.rejectedNotPositive, d)
    else
      match d.MIN_PRICE with
      | some m0 =>
        if m0 ≠ 0 ∧ v < m0 then (.rejectedBand, d)
        else (.advanced "min_supply", { d with MAX_PRICE := some v })
      | none => (.advanced "min_supply", { d with MAX_PRICE := some v })

/-- `step_min_supply` (lines 1594-1614). -/
def step_min_supply (m : WizMsg) (d : WizardData) : StepOutcome × WizardData :=
  match m with
  | .cancelMsg => (.cancelled, d)
  | .nontext => (.rejectedNotText, d)
  | .nonIntText => (.rejectedNotPositive, d)
  | .intText v =>
    if v ≤ 0 then (.rejectedNotPositive, d)
    else (.advanced "max_supply", { d with MIN_SUPPLY := some v })

/-- `step_max_supply` (lines 1617-1644), symmetric to `step_max_price`. -/
def step_max_supply (m : WizMsg) (d : WizardData) : StepOutcome × WizardData :=
  match m with
  | .cancelMsg => (.cancelled, d)
  | .nontext => (.rejectedNotText, d)
  | .nonIntText => (.rejectedNotPositive, d)
  | .intText v =>
    if v ≤ 0 then (.rejectedNotPositive, d)
    else
      match d.MIN_SUPPLY with
      | some m0 =>
        if m0 ≠ 0 ∧ v < m0 then (.rejectedBand, d)
        else (.advanced "count", { d with MAX_SUPPLY := some v })
      | none => (.advanced "count", { d with MAX_SUPPLY := some v })

/-- Outcome of a profile-edit band step; `saved min max` records the two
values persisted into the indexed profile, and `crashedKeyError` models
`data["MIN_PRICE"]` raising when the key is absent (the rejection check was
already passed at that point, so this is not a band rejection). -/
inductive EditOutcome where
  | cancelled
  | rejectedNotText
  | rejectedNotPositive
  | rejectedBand
  | crashedKeyError
  | saved (minv maxv : Int)
deriving DecidableEq, Repr

/-- `step_edit_max_price` (lines 1046-1089): validate, apply the same band
rejection (`if min_price and value < min_price`), then persist
`data["MIN_PRICE"]` and the entered value into the profile. -/
def step_edit_max_price (m : WizMsg) (d : WizardData) : EditOutcome :=
  match m with
  | .cancelMsg => .cancelled
  | .nontext => .rejectedNotText
  | .nonIntText => .rejectedNotPositive
  | .intText v =>
    if v ≤ 0 then .rejectedNotPositive
    else
      match d.MIN_PRICE with
      | some m0 =>
        if m0 ≠ 0 ∧ v < m0 then .rejectedBand else .saved m0 v
      | none => .crashedKeyError

/-- `step_edit_max_supply` (lines 1125-1168), symmetric. -/
def step_edit_max_supply (m : WizMsg) (d : WizardData) : EditOutcome :=
  match m with
  | .cancelMsg => .cancelled
  | .nontext => .rejectedNotText
  | .nonIntText => .rejectedNotPositive
  | .intText v =>
    if v ≤ 0 then .rejectedNotPositive
    else
      match d.MIN_SUPPLY with
      | some m0 =>
        if m0 ≠ 0 ∧ v < m0 then .rejectedBand else .saved m0 v
      | none => .crashedKeyError

/-- C7.  In both the new-profile wizard and the edit flow, the max-price step
rejects any entered value below the min-price previously entered in the same
session, re-prompting with the state bag unchanged and persisting nothing;
symmetrically for the supply band; a min value entered in this session is
always positive; and when no min value was set in this session, the max
step never issues the band rejection. -/
theorem claim7_theorem :
    (∀ (v m0 : Int) (d : WizardData), 0 < v → d.MIN_PRICE = some m0 →
      0 < m0 → v < m0 →
      step_max_price (.intText v) d = (.rejectedBand, d)
      ∧ step_edit_max_price (.intText v) d = .rejectedBand) ∧
    (∀ (v m0 : Int) (d : WizardData), 0 < v → d.MIN_SUPPLY = some m0 →
      0 < m0 → v < m0 →
      step_max_supply (.intText v) d = (.rejectedBand, d)
      ∧ step_edit_max_supply (.intText v) d = .rejectedBand) ∧
    (∀ (v : Int) (d : WizardData) (r : StepOutcome × WizardData),
      step_min_price (.intText v) d = r → r.1 = .advanced "max_price" →
      r.2.MIN_PRICE = some v ∧ 0 < v) ∧
    (∀ (v : Int) (d : WizardData), 0 < v → d.MIN_PRICE = none →
      step_max_price (.intText v) d
        = (.advanced "min_supply", { d with MAX_PRICE := some v })
      ∧ step_edit_max_price (.intText v) d ≠ .rejectedBand) ∧
    (∀ (v : Int) (d : WizardData), 0 < v → d.MIN_SUPPLY = none →
      step_max_supply (.intText v) d
        = (.advanced "count", { d with MAX_SUPPLY := some v })
      ∧ step_edit_max_supply (.intText v) d ≠ .rejectedBand) := by
  refine ⟨?_, ?_, ?_, ?_, ?_⟩
  · intro v m0 d hv hmin hm0 hlt
    constructor
    · simp [step_max_price, hmin, not_le.mpr hv, hlt, (show m0 ≠ 0 by omega)]
    · simp [step_edit_max_price, hmin, not_le.mpr hv, hlt, (show m0 ≠ 0 by omega)]
  · intro v m0 d hv hmin hm0 hlt
    constructor
    · simp [step_max_supply, hmin, not_le.mpr hv, hlt, (show m0 ≠ 0 by omega)]
    · simp [step_edit_max_supply, hmin, not_le.mpr hv, hlt, (show m0 ≠ 0 by omega)]
  · intro v d r hr hadv
    subst hr
    by_cases hv : v ≤ 0
    · simp [step_min_price, hv] at hadv
    · refine ⟨?_, by omega⟩
      simp [step_min_price, hv]
  · intro v d hv hnone
    constructor
    · simp [step_max_price, hnone, not_le.mpr hv]
    · simp [step_edit_max_price, hnone, not_le.mpr hv]
  · intro v d hv hnone
    constructor
    · simp [step_max_supply, hnone, not_le.mpr hv]
    · simp [step_edit_max_supply, hnone, not_le.mpr hv]

/-- Witness for C7 at concrete values: min-price 5000 entered, max-price 300
rejected without persisting; with no session min-price, max-price 300
advances. -/
theorem claim7_witness :
    (step_max_price (.intText 300) ⟨some 5000, none, none, none⟩
        = (.rejectedBand, ⟨some 5000, none, none, none⟩)
      ∧ step_edit_max_price (.intText 300) ⟨some 5000, none, none, none⟩
        = .rejectedBand)
    ∧ (step_max_price (.intText 300) ⟨none, none, none, none⟩
        = (.advanced "min_supply", ⟨none, some 300, none, none⟩)
      ∧ step_edit_max_price (.intText 300) ⟨none, none, none, none⟩
        ≠ .rejectedBand) :=
  ⟨claim7_theorem.1 300 5000 ⟨some 5000, none, none, none⟩ (by decide) rfl
      (by decide) (by decide),
   claim7_theorem.2.2.2.1 300 ⟨none, none, none, none⟩ (by decide) rfl⟩

/-!
## Proxy-identity sign-in (`src/services/userbot.py`)

`continue_userbot_signin` (lines 306-392) and `finish_userbot_signin`
(lines 395-472).  The outcome of the platform call (`app.sign_in` /
`app.check_password` followed by the `get_me` verification) is an input; the
per-attempt counters (`code_attempts` / `password_attempts`) live in the
wizard state bag and are threaded explicitly. -/

/-- Observed outcome of `app.sign_in` + the `get_me` verification, one
constructor per `except` arm of `continue_userbot_signin`. -/
inductive SignOutcome where
  | ok
  | okGetMeFails
  | needsPassword
  | invalidCode
  | securityMismatch
  | otherError
deriving DecidableEq, Repr

/-- Return value of the sign-in continuation: the annotated
`(success, need_password, retry)` triple, or the anomalous bare pair the
code returns when `get_me` fails after a successful `sign_in`. -/
inductive SigninRet where
  | triple (success needPassword retry : Bool)
  | pair (a b : Bool)
deriving DecidableEq, Repr

/-- `continue_userbot_signin`: given whether a pending client exists, the
accumulated code string, the current `code_attempts` counter and the
platform outcome, returns the result and the updated counter. -/
def continue_userbot_signin (clientFound : Bool) (code : String)
    (attempts : Nat) (outcome : SignOutcome) : SigninRet × Nat :=
  if !clientFound then (.triple false false false, attempts)
  else if code = "" then (.triple false false false, attempts)
  else
    match outcome with
    | .ok => (.triple true false false, attempts)
    | .okGetMeFails => (.pair false false, attempts)
    | .needsPassword => (.triple true true false, attempts)
    | .invalidCode =>
      let a := attempts + 1
      if a < 3 then (.triple false false true, a)
      else (.triple false false false, a)
    | .securityMismatch => (.triple false false false, attempts)
    | .otherError => (.triple false false false, attempts)

/-- Observed outcome of `app.check_password` + the `get_me` verification. -/
inductive PwOutcome where
  | ok
  | okGetMeFails
  | invalidPassword
  | securityMismatch
  | otherError
deriving DecidableEq, Repr

/-- `finish_userbot_signin`: returns the `(success, retry)` pair and the
updated `password_attempts` counter. -/
def finish_userbot_signin (clientFound : Bool) (password : String)
    (attempts : Nat) (outcome : PwOutcome) : (Bool × Bool) × Nat :=
  if !clientFound then ((false, false), attempts)
  else if password = "" then ((false, false), attempts)
  else
    match outcome with
    | .ok => ((true, false), attempts)
    | .okGetMeFails => ((false, false), attempts)
    | .invalidPassword =>
      let a := attempts + 1
      if a < 3 then ((false, true), a)
      else ((false, false), a)
    | .securityMismatch => ((false, false), attempts)
    | .otherError => ((false, false), attempts)

/-- One wizard session submitting codes in sequence: thread the attempts
counter through `continue_userbot_signin`, collecting the results. -/
def codeSession (code : String) : List SignOutcome → Nat →
    List SigninRet × Nat
  | [], attempts => ([], attempts)
  | oc :: rest, attempts =>
    let r := continue_userbot_signin true code attempts oc
    let rr := codeSession code rest r.2
    (r.1 :: rr.1, rr.2)

/-- C8.  Submitting an invalid confirmation code increments the per-attempt
counter; starting from a fresh session, the first and second invalid codes
return the retry signal `(false, false, retry=true)`, the third returns the
final failure `(false, false, false)`; a correct code (with identity
verification succeeding) returns `(true, false, false)` regardless of fewer
than three accumulated failures; the password step follows the same
3-attempt pattern with `(false, retry=true)` below the cap. -/
theorem claim8_theorem :
    (∀ (code : String) (a : Nat), code ≠ "" → a + 1 < 3 →
      continue_userbot_signin true code a .invalidCode
        = (.triple false false true, a + 1)) ∧
    (∀ (code : String) (a : Nat), code ≠ "" → a + 1 ≥ 3 →
      continue_userbot_signin true code a .invalidCode
        = (.triple false false false, a + 1)) ∧
    (∀ (code : String) (a : Nat), code ≠ "" →
      continue_userbot_signin true code a .ok = (.triple true false false, a)) ∧
    codeSession "12345" [.invalidCode, .invalidCode, .invalidCode] 0
      = ([.triple false false true, .triple false false true,
          .triple false false false], 3) ∧
    codeSession "12345" [.invalidCode, .invalidCode, .ok] 0
      = ([.triple false false true, .triple false false true,
          .triple true false false], 2) ∧
    (∀ (pw : String) (a : Nat), pw ≠ "" → a + 1 < 3 →
      finish_userbot_signin true pw a .invalidPassword = ((false, true), a + 1)) ∧
    (∀ (pw : String) (a : Nat), pw ≠ "" → a + 1 ≥ 3 →
      finish_userbot_signin true pw a .invalidPassword = ((false, false), a + 1)) ∧
    (∀ (pw : String) (a : Nat), pw ≠ "" →
      finish_userbot_signin true pw a .ok = ((true, false), a)) := by
  refine ⟨?_, ?_, ?_, by decide, by decide, ?_, ?_, ?_⟩
  · intro code a hc ha
    simp [continue_userbot_signin, hc, ha]
  · intro code a hc ha
    simp [continue_userbot_signin, hc, (show ¬a + 1 < 3 by omega)]
  · intro code a hc
    simp [continue_userbot_signin, hc]
  · intro pw a hp ha
    simp [finish_userbot_signin, hp, ha]
  · intro pw a hp ha
    simp [finish_userbot_signin, hp, (show ¬a + 1 < 3 by omega)]
  · intro pw a hp
    simp [finish_userbot_signin, hp]

/-- Witness for C8 at concrete inputs: attempts counter 1 (second failure)
still retries, counter 2 (third failure) fails finally, and a correct code
succeeds. -/
theorem claim8_witness :
    continue_userbot_signin true "12345" 1 .invalidCode
      = (.triple false false true, 2)
    ∧ continue_userbot_signin true "12345" 2 .invalidCode
      = (.triple false false false, 3)
    ∧ continue_userbot_signin true "12345" 0 .ok
      = (.triple true false false, 0)
    ∧ finish_userbot_signin true "pw" 1 .invalidPassword = ((false, true), 2) :=
  ⟨claim8_theorem.1 "12345" 1 (by decide) (by decide),
   claim8_theorem.2.1 "12345" 2 (by decide) (by decide),
   claim8_theorem.2.2.1 "12345" 0 (by decide),
   claim8_theorem.2.2.2.2.2.1 "pw" 1 (by decide) (by decide)⟩

/-!
## Mock gift generator (`src/utils/mockdata.py`, `generate_test_gifts`)

The `random.choice([i]*9 + [i+1])` call is the only source of randomness:
it is modelled by an oracle picking an index into that 10-element list, so a
"run" of the generator is the function applied to one such oracle. -/

/-- One generated mock gift. -/
structure MockGift where
  id : String
  price : Nat
  supply : Nat
  left : Nat
  sticker_file_id : String
  emoji : String
deriving DecidableEq, Repr

/-- The argument list of `random.choice` for index `i`: nine copies of `i`
followed by one `i + 1`. -/
def multChoices (i : Nat) : List Nat :=
  [i, i, i, i, i, i, i, i, i, i + 1]

/-- The multiplier drawn by `random.choice` when the PRNG picks position
`c i` of the 10-element list. -/
def pickMult (choice : Nat → Fin 10) (i : Nat) : Nat :=
  (multChoices i).get ⟨(choice i).val, by
    have h := (choice i).isLt
    simp only [multChoices, List.length_cons, List.length_nil]
    omega⟩

/-- `generate_test_gifts(count)` under PRNG oracle `choice`. -/
def generate_test_gifts (count : Nat) (choice : Nat → Fin 10) : List MockGift :=
  (List.range count).map (fun i =>
    { id := "0000" ++ toString i,
      price := 5000 + 1000 * pickMult choice i,
      supply := 9000 + 1000 * i,
      left := 4000 + 1000 * i,
      sticker_file_id := "FAKE_FILE_ID_" ++ toString i,
      emoji := "🎁" })

/-- C9 counterexample: the generator is **not** deterministic — two runs with
the same count but different PRNG draws (`random.choice` picking `i` versus
`i + 1`) produce different lists: already at count 1 the single gift is
priced 5000 in one run and 6000 in the other. -/
theorem claim9_counterexample :
    generate_test_gifts 1 (fun _ => ⟨0, by decide⟩)
      ≠ generate_test_gifts 1 (fun _ => ⟨9, by decide⟩) := by
  decide

/-- C9 amended: for every count and every pair of PRNG draws, the two runs
have the same length and agree on id, supply (9000 + 1000·i), left
(4000 + 1000·i), sticker id and emoji at every index; only the price may
differ, and each run's price at index `i` is either 5000 + 1000·i or
5000 + 1000·(i+1). -/
theorem claim9_theorem (count : Nat) (c₁ c₂ : Nat → Fin 10) :
    (generate_test_gifts count c₁).length = (generate_test_gifts count c₂).length
    ∧ ∀ (i : Nat) (h₁ : i < (generate_test_gifts count c₁).length)
        (h₂ : i < (generate_test_gifts count c₂).length),
      (((generate_test_gifts count c₁).get ⟨i, h₁⟩).id
          = ((generate_test_gifts count c₂).get ⟨i, h₂⟩).id)
      ∧ (((generate_test_gifts count c₁).get ⟨i, h₁⟩).supply = 9000 + 1000 * i
          ∧ ((generate_test_gifts count c₂).get ⟨i, h₂⟩).supply = 9000 + 1000 * i)
      ∧ (((generate_test_gifts count c₁).get ⟨i, h₁⟩).left = 4000 + 1000 * i
          ∧ ((generate_test_gifts count c₂).get ⟨i, h₂⟩).left = 4000 + 1000 * i)
      ∧ (((generate_test_gifts count c₁).get ⟨i, h₁⟩).sticker_file_id
          = ((generate_test_gifts count c₂).get ⟨i, h₂⟩).sticker_file_id)
      ∧ (((generate_test_gifts count c₁).get ⟨i, h₁⟩).emoji
          = ((generate_test_gifts count c₂).get ⟨i, h₂⟩).emoji)
      ∧ (((generate_test_gifts count c₁).get ⟨i, h₁⟩).price = 5000 + 1000 * i
          ∨ ((generate_test_gifts count c₁).get ⟨i, h₁⟩).price
            = 5000 + 1000 * (i + 1)) := by
  constructor
  · simp [generate_test_gifts]
  · intro i h₁ h₂
    have hi : i < count := by
      simp [generate_test_gifts] at h₁
      exact h₁
    have hget : ∀ (c : Nat → Fin 10) (h : i < (generate_test_gifts count c).length),
        (generate_test_gifts count c).get ⟨i, h⟩
          = { id := "0000" ++ toString i,
              price := 5000 + 1000 * pickMult c i,
              supply := 9000 + 1000 * i,
              left := 4000 + 1000 * i,
              sticker_file_id := "FAKE_FILE_ID_" ++ toString i,
              emoji := "🎁" } := by
      intro c h
      simp [generate_test_gifts]
    rw [hget c₁ h₁, hget c₂ h₂]
    refine ⟨rfl, ⟨rfl, rfl⟩, ⟨rfl, rfl⟩, rfl, rfl, ?_⟩
    have hmem : pickMult c₁ i ∈ multChoices i := by
      unfold pickMult
      exact List.get_mem _ _ _
    have hmult : pickMult c₁ i = i ∨ pickMult c₁ i = i + 1 := by
      simpa [multChoices] using hmem
    rcases hmult with h | h <;> simp [h]

/-- Witness for C9 amended at count 2 and index 1 with concrete draws. -/
theorem claim9_witness :
    ((generate_test_gifts 2 (fun _ => ⟨0, by decide⟩)).length
      = (generate_test_gifts 2 (fun _ => ⟨9, by decide⟩)).length)
    ∧ ((generate_test_gifts 2 (fun _ => ⟨0, by decide⟩)).get
        ⟨1, by decide⟩).supply = 9000 + 1000 * 1 :=
  ⟨(claim9_theorem 2 (fun _ => ⟨0, by decide⟩) (fun _ => ⟨9, by decide⟩)).1,
   (((claim9_theorem 2 (fun _ => ⟨0, by decide⟩) (fun _ => ⟨9, by decide⟩)).2
      1 (by decide) (by decide)).2.1).1⟩

/-!
## Gift normalization (`src/services/gifts_bot.py`, `src/services/gifts_redis.py`)
and the catalog partition (`src/handlers/handlers_catalog.py`, `catalog`).

The bot-identity source normalizes an aiogram `Gift` object; the cached
source normalizes a JSON dict read from the cache.  The catalog handler then
partitions the fetched list on `g['supply'] == None`. -/

/-- The aiogram sticker attributes read by `normalize_gift`. -/
structure TgSticker where
  file_id : String
  emoji : Option String
deriving DecidableEq, Repr

/-- The aiogram `Gift` attributes read by `normalize_gift`:
`total_count` / `remaining_count` are `None` for unlimited gifts. -/
structure TgGift where
  id : String
  star_count : Int
  total_count : Option Int
  remaining_count : Option Int
  sticker : Option TgSticker
deriving DecidableEq, Repr

/-- Normalized gift record in the dynamic shape the handlers consume
(each field is the Python value stored under that dict key). -/
structure NormGift where
  id : JVal
  price : JVal
  supply : JVal
  left : JVal
  sticker_file_id : JVal
  emoji : JVal

/-- `src/services/gifts_bot.py`, `normalize_gift` (lines 26-40):
`getattr(gift, "total_count", 0) or 0` maps both a missing and a `None`
count to `0` (and `0 or 0` is `0`), so `supply`/`left` are always ints. -/
def normalize_gift_bot (g : TgGift) : NormGift :=
  { id := .jstr g.id,
    price := .jint g.star_count,
    supply := .jint (g.total_count.getD 0),
    left := .jint (g.remaining_count.getD 0),
    sticker_file_id := match g.sticker with
      | some s => .jstr s.file_id
      | none => .jnull,
    emoji := match g.sticker with
      | some s => match s.emoji with
        | some e => .jstr e
        | none => .jnull
      | none => .jnull }

/-- `src/services/gifts_redis.py`, `normalize_gift` (lines 76-90): plain
`dict.get` calls — a **missing** `supply` / `remaining_count` key defaults
to `0`, but a key that is present with a JSON `null` value is passed
through unchanged. -/
def normalize_gift_redis (g : List (String × JVal)) : NormGift :=
  { id := (dictGet g "id").getD .jnull,
    price := (dictGet g "price").getD .jnull,
    supply := (dictGet g "supply").getD (.jint 0),
    left := (dictGet g "remaining_count").getD (.jint 0),
    sticker_file_id := (dictGet g "sticker_file_id").getD .jnull,
    emoji := (dictGet g "emoji").getD .jnull }

/-- Python `g['supply'] == None`: true exactly for a stored `None`. -/
def supplyIsNone (g : NormGift) : Bool :=
  match g.supply with
  | .jnull => true
  | _ => false

/-- `src/handlers/handlers_catalog.py`, `catalog` (lines 77-78): the
partition of the fetched list into unlimited gifts. -/
def gifts_unlimited (gifts : List NormGift) : List NormGift :=
  gifts.filter supplyIsNone

/-- The complementary partition (line 77). -/
def gifts_limited (gifts : List NormGift) : List NormGift :=
  gifts.filter (fun g => !supplyIsNone g)

/-- C10 counterexample: the cached source's normalizer does **not** map a
present-but-null total count to `0` — on the record with a JSON-null
`supply` it returns a null `supply`, and the catalog partition of a list
containing that record counts it as unlimited (non-empty partition),
contradicting "supply ... integers, mapping a missing or null count to 0"
and "the partition ... is always empty". -/
theorem claim10_counterexample :
    (normalize_gift_redis [("supply", JVal.jnull)]).supply = JVal.jnull
    ∧ gifts_unlimited [normalize_gift_redis [("supply", JVal.jnull)]]
        = [normalize_gift_redis [("supply", JVal.jnull)]] := by
  constructor
  · rfl
  · rfl

/-- C10 amended: the bot-identity normalizer always produces integer
`supply`/`left` fields (missing or null counts become 0), so any catalog
list coming from it has an empty unlimited partition and every gift counted
as limited; the cached source's normalizer defaults only a **missing**
`supply`/`remaining_count` key to 0 and passes a present null through. -/
theorem claim10_theorem :
    (∀ (g : TgGift), (∃ n : Int, (normalize_gift_bot g).supply = .jint n)
      ∧ (∃ n : Int, (normalize_gift_bot g).left = .jint n)
      ∧ (g.total_count = none → (normalize_gift_bot g).supply = .jint 0)
      ∧ (g.remaining_count = none → (normalize_gift_bot g).left = .jint 0)) ∧
    (∀ (gs : List TgGift),
      gifts_unlimited (gs.map normalize_gift_bot) = []
      ∧ gifts_limited (gs.map normalize_gift_bot) = gs.map normalize_gift_bot) ∧
    (∀ (g : List (String × JVal)),
      (dictGet g "supply" = none → (normalize_gift_redis g).supply = .jint 0)
      ∧ (dictGet g "remaining_count" = none →
          (normalize_gift_redis g).left = .jint 0)
      ∧ (dictGet g "supply" = some .jnull →
          (normalize_gift_redis g).supply = .jnull)) := by
  refine ⟨?_, ?_, ?_⟩
  · intro g
    exact ⟨⟨g.total_count.getD 0, rfl⟩, ⟨g.remaining_count.getD 0, rfl⟩,
      fun h => by simp [normalize_gift_bot, h],
      fun h => by simp [normalize_gift_bot, h]⟩
  · intro gs
    constructor
    · simp only [gifts_unlimited, List.filter_eq_nil_iff]
      intro g hg
      obtain ⟨t, _, rfl⟩ := List.mem_map.mp hg
      simp [supplyIsNone, normalize_gift_bot]
    · simp only [gifts_limited, List.filter_eq_self]
      intro g hg
      obtain ⟨t, _, rfl⟩ := List.mem_map.mp hg
      simp [supplyIsNone, normalize_gift_bot]
  · intro g
    exact ⟨fun h => by simp [normalize_gift_redis, h],
      fun h => by simp [normalize_gift_redis, h],
      fun h => by simp [normalize_gift_redis, h]⟩

/-- Witness for C10 amended at concrete gifts: a limited and an unlimited
bot-API gift both normalize to integer supplies and the partition of the
two-gift list is empty. -/
theorem claim10_witness :
    (∃ n : Int, (normalize_gift_bot ⟨"g1", 5000, some 10000, some 4000,
        none⟩).supply = .jint n)
    ∧ gifts_unlimited
        ([⟨"g1", 5000, some 10000, some 4000, none⟩,
          ⟨"g2", 15, none, none, none⟩].map normalize_gift_bot) = []
    ∧ (normalize_gift_redis [("id", JVal.jstr "g3")]).supply = .jint 0 :=
  ⟨(claim10_theorem.1 ⟨"g1", 5000, some 10000, some 4000, none⟩).1,
   (claim10_theorem.2.1 [⟨"g1", 5000, some 10000, some 4000, none⟩,
      ⟨"g2", 15, none, none, none⟩]).1,
   (claim10_theorem.2.2 [("id", JVal.jstr "g3")]).1 rfl⟩
